import Mathlib

/- Shallow embedding of the srsue RRC procedure engine
   (src/srsue/src/stack/rrc/rrc_procedures.cc).

   Pure helper functions (SI scheduling arithmetic) are translated directly.
   Stateful procedure handlers (init / step / react / then) are translated as
   functions from the procedure's explicit state plus the values the handler
   reads from its collaborators (PHY, MAC, NAS, timers, the measured-cells
   store) to the returned outcome, the successor state and a record of the
   side effects the handler performs on the collaborators. -/

/-- Outcome type of procedure handlers (srslte::proc_outcome_t). -/
inductive ProcOutcome
  | yield
  | success
  | error
  deriving DecidableEq

/-- Modelled from the spec: wrap-aware strict comparison of srslte::tti_point
values (the tti_point header is not among the provided sources; spec section 6
states that all subframe times are unsigned modulo 10240 and that subtraction
is wrap-aware, assuming an absolute delta below 5120). x is strictly earlier
than y exactly when the forward distance from x to y, taken modulo 10240, is
positive and below 5120. -/
def tti_lt (x y : Nat) : Bool :=
  decide (0 < (y % 10240 + 10240 - x % 10240) % 10240 ∧
          (y % 10240 + 10240 - x % 10240) % 10240 < 5120)

/-- Modelled from the spec: wrap-aware signed difference of srslte::tti_point
values, mapping the forward distance into the half-open window of width 10240
around zero. -/
def tti_sub (x y : Nat) : Int :=
  let d := (x % 10240 + 10240 - y % 10240) % 10240
  if d < 5120 then (d : Int) else (d : Int) - 10240

/-- SIB1 periodicity in subframes (rrc_procedures.cc line 176). -/
def sib1_periodicity : Nat := 20

/-- Start TTI of the next SI-window (rrc_procedures.cc sib_start_tti):
the source computes (T * 10 * (1 + tti / (T * 10)) + (offset * 10) + a) % 10240,
where the 1 selects the next opportunity. -/
def sib_start_tti (tti T offset a : Nat) : Nat :=
  (T * 10 * (1 + tti / (T * 10)) + offset * 10 + a) % 10240

/-- One entry of SIB1's schedInfoList: its si-Periodicity (in frames, already
converted to a number) and its sib_map_info entries (SIB type numbers). -/
structure SchedInfo where
  si_periodicity : Nat
  sib_map_info : List Nat
  deriving DecidableEq

/-- The fields of asn1::rrc::sib_type1_s that the RRC procedures read:
si-WindowLength (converted to a number of subframes) and schedInfoList. -/
structure SibType1 where
  si_win_len : Nat
  sched_info_list : List SchedInfo
  deriving DecidableEq

/-- Inner search of compute_si_periodicity_and_idx for SIB3+ (Section 5.2.3):
first schedInfoList entry whose sib_map_info contains the target SIB number
yields its periodicity and its position; otherwise the failure pair (0, -1). -/
def find_si_sched : List SchedInfo → Nat → Nat → Nat × Int
  | [], _, _ => (0, -1)
  | si :: rest, target, i =>
    if target ∈ si.sib_map_info then (si.si_periodicity, (i : Int))
    else find_si_sched rest target (i + 1)

/-- compute_si_periodicity_and_idx (rrc_procedures.cc): si-Periodicity T and
schedInfoList order index n for a SIB index; (0, -1) when not scheduled.
The sib_index == 1 branch reads sched_info_list[0] unchecked in the source;
an empty list is mapped to the all-zero entry here. -/
def compute_si_periodicity_and_idx (sib_index : Nat) (sib1 : SibType1) : Nat × Int :=
  if sib_index = 0 then (sib1_periodicity, 0)
  else if sib_index = 1 then
    ((sib1.sched_info_list.headD ⟨0, []⟩).si_periodicity, 0)
  else find_si_sched sib1.sched_info_list (sib_index + 1) 0

/-- compute_si_window (rrc_procedures.cc): SI-window start TTI and length.
For SIB1 (sib_index == 0) the window is 1 subframe starting at subframe 5 of
the next even frame; otherwise the subframe a and frame offset are derived
from x = n * si-WindowLength. -/
def compute_si_window (tti sib_index n T : Nat) (sib1 : SibType1) : Nat × Nat :=
  if sib_index = 0 then (sib_start_tti tti 2 0 5, 1)
  else
    let si_win_len := sib1.si_win_len
    let x := n * si_win_len
    let a := x % 10
    let offset := x / 10
    (sib_start_tti tti T offset a, si_win_len)

/-- Hard-coded HARQ retransmission count used by start_si_acquire. -/
def nof_sib_harq_retxs : Nat := 5

/-- Side effects performed by rrc::si_acquire_proc::start_si_acquire:
the MAC bcch_start_rx request (window start and length), the value the retry
timer is set to, and whether the retry timer was started. -/
structure SiAcqActions where
  bcchStart : Option (Nat × Nat)
  retryTics : Option Nat
  retryRun : Bool
  deriving DecidableEq

/-- rrc::si_acquire_proc::start_si_acquire. Computes the SI-window; when the
window start compares (wrap-aware) earlier than the current TTI it only logs
an error and returns, performing no side effect. Otherwise it instructs MAC
to listen on BCCH and arms the retry timer. The C++ conversion of the signed
tic count to uint32_t is modelled by the Euclidean remainder modulo 2 ^ 32. -/
def start_si_acquire (tti sib_index sched_index period : Nat) (sib1 : SibType1) :
    SiAcqActions :=
  let ret := compute_si_window tti sib_index sched_index period sib1
  let si_win_start := ret.1
  if tti_lt si_win_start tti then
    { bcchStart := none, retryTics := none, retryRun := false }
  else
    let si_win_len := ret.2
    let retry_period := if sib_index = 0 then sib1_periodicity else period * nof_sib_harq_retxs
    let tics_until_si_win_start := tti_sub si_win_start tti
    let tics_until_si_retry := (((retry_period : Int) + tics_until_si_win_start).emod (2 ^ 32)).toNat
    { bcchStart := some (si_win_start, si_win_len),
      retryTics := some tics_until_si_retry,
      retryRun := true }

/-- rrc::si_acquire_proc::react(sib_received_ev): success exactly when the
serving cell now has the SIB of interest, else keep waiting. -/
def si_acq_react_sib_received (hasSib : Bool) : ProcOutcome :=
  if hasSib then .success else .yield

/-- rrc::si_acquire_proc::react(si_acq_timer_expired): success when the SIB
arrived meanwhile; the retry timer id triggers a new start_si_acquire and
yields; any other id (the overall timeout, or an unrecognized id) is an
error. -/
def si_acq_react_timer (hasSib : Bool) (evTimerId retryTimerId timeoutTimerId : Nat) :
    ProcOutcome :=
  if hasSib then .success
  else if evTimerId = retryTimerId then .yield
  else .error

/-- The observable state of one srslte unique_timer. -/
structure UniqueTimer where
  running : Bool
  expired : Bool
  deriving DecidableEq

/-- unique_timer::stop clears the running flag. -/
def UniqueTimer.stop (t : UniqueTimer) : UniqueTimer := { t with running := false }

/-- The two timers owned by rrc::si_acquire_proc. -/
structure SiAcqTimers where
  si_acq_retry_timer : UniqueTimer
  si_acq_timeout : UniqueTimer
  deriving DecidableEq

/-- rrc::si_acquire_proc::then: stops the retry timer and the timeout timer
unconditionally; the completion result is only used for logging. -/
def si_acquire_then (ts : SiAcqTimers) (resultIsSuccess : Bool) : SiAcqTimers :=
  { ts with
    si_acq_retry_timer := ts.si_acq_retry_timer.stop,
    si_acq_timeout := ts.si_acq_timeout.stop }

/-- Result of one pass of the serving-cell-config walk: still waiting for the
SI-acquire future, yielded after launching SI-acquire for the required SIB at
a given position, failed, or completed successfully. -/
inductive SccRes
  | waiting
  | yieldAt (idx : Nat)
  | error
  | success
  deriving DecidableEq

/-- Loop of rrc::serving_cell_config_proc::launch_sib_acquire over the
remaining required SIBs, with the absolute position idx carried along.
A missing SIB that is SIB1/SIB2 (index below 2) or scheduled in SIB1's
schedInfoList launches SI-acquire and yields (error when the SI-acquire
procedure is already running); a missing unscheduled SIB3+ is skipped; a SIB
already present is handled (handle_sib2 / handle_sib13 configure MAC and
MBMS; those configuration side effects are not modelled) and the loop
continues. Reaching the end of the list is success. -/
def scc_walk (hasSib isSibScheduled : Nat → Bool) (launchOk : Bool) :
    List Nat → Nat → SccRes
  | [], _ => .success
  | s :: rest, idx =>
    if hasSib s = false then
      if decide (s < 2) || isSibScheduled s then
        if launchOk then .yieldAt idx else .error
      else
        scc_walk hasSib isSibScheduled launchOk rest (idx + 1)
    else
      scc_walk hasSib isSibScheduled launchOk rest (idx + 1)

/-- rrc::serving_cell_config_proc::launch_sib_acquire: run the walk from the
current req_idx over the rest of required_sibs. -/
def scc_launch_from (hasSib isSibScheduled : Nat → Bool) (launchOk : Bool)
    (required_sibs : List Nat) (req_idx : Nat) : SccRes :=
  scc_walk hasSib isSibScheduled launchOk (required_sibs.drop req_idx) req_idx

/-- rrc::serving_cell_config_proc::init: fails when the PHY is not camping,
otherwise starts the walk at req_idx = 0. -/
def scc_init (cellIsCamping : Bool) (hasSib isSibScheduled : Nat → Bool)
    (launchOk : Bool) (required_sibs : List Nat) : SccRes :=
  if cellIsCamping = false then .error
  else scc_launch_from hasSib isSibScheduled launchOk required_sibs 0

/-- rrc::serving_cell_config_proc::step: waits for the SI-acquire future;
once complete, reads required_sibs[req_idx] (getD with default 0 models the
unchecked vector indexing), fails when the acquisition failed (or the SIB is
still absent) for a SIB index below 2, and otherwise advances req_idx and
relaunches the walk. Returns the outcome and the new req_idx. -/
def scc_step (hasSib isSibScheduled : Nat → Bool) (launchOk : Bool)
    (required_sibs : List Nat) (req_idx : Nat) (futComplete futError : Bool) :
    SccRes × Nat :=
  if futComplete = false then (.waiting, req_idx)
  else
    let required_sib := required_sibs.getD req_idx 0
    if (futError || !hasSib required_sib) && decide (required_sib < 2) then
      (.error, req_idx)
    else
      (scc_launch_from hasSib isSibScheduled launchOk required_sibs (req_idx + 1), req_idx + 1)

/-- States of rrc::cell_search_proc. -/
inductive CellSearchState
  | phy_cell_search
  | phy_cell_select
  | si_acquire
  | wait_measurement
  deriving DecidableEq

/-- The found field of phy_interface_rrc_lte::cell_search_ret_t. -/
inductive CellFoundRes
  | cell_found
  | cell_not_found
  | search_error
  deriving DecidableEq

/-- rrc::cell_search_proc::react(const phy_controller::cell_srch_res&),
with handle_cell_found inlined. In a state other than phy_cell_search the
source logs an Error and returns error. On CELL_FOUND: a failed
add_meas_cell is an error; otherwise the serving cell is set, the state moves
to phy_cell_select and PHY cell selection is requested (error when the
request fails). CELL_NOT_FOUND is success; any other result is error. -/
def cell_search_react_srch_res (st : CellSearchState) (found : CellFoundRes)
    (addMeasCellOk startCellSelectOk : Bool) : ProcOutcome × CellSearchState :=
  if st ≠ CellSearchState.phy_cell_search then (.error, st)
  else
    match found with
    | .cell_found =>
      if addMeasCellOk = false then (.error, st)
      else if startCellSelectOk = false then (.error, .phy_cell_select)
      else (.yield, .phy_cell_select)
    | .cell_not_found => (.success, st)
    | .search_error => (.error, st)

/-- rrc::cell_search_proc::react(const bool&): in a state other than
phy_cell_select the source logs a Warning and yields; otherwise a false
selection result or a non-camping PHY is an error, and on success the state
moves to wait_measurement. -/
def cell_search_react_bool (st : CellSearchState) (cs_ret cellIsCamping : Bool) :
    ProcOutcome × CellSearchState :=
  if st ≠ CellSearchState.phy_cell_select then (.yield, st)
  else if cs_ret = false then (.error, st)
  else if cellIsCamping = false then (.error, st)
  else (.yield, .wait_measurement)

/-- States of rrc::cell_selection_proc. -/
inductive CellSelState
  | cell_selection
  | serv_cell_camp
  | cell_search
  | cell_config
  deriving DecidableEq

/-- rrc::cell_selection_proc::react(const bool&): dispatch on the search
state. The two matching states delegate to step_cell_selection and
step_serv_cell_camp, passed here as functions; in state cell_search the
switch breaks and the handler yields; the remaining state (cell_config) hits
the default case, logs a Warning and yields. -/
def cell_selection_react (st : CellSelState) (event : Bool)
    (step_cell_selection step_serv_cell_camp : Bool → ProcOutcome) : ProcOutcome :=
  match st with
  | .cell_selection => step_cell_selection event
  | .serv_cell_camp => step_serv_cell_camp event
  | .cell_search => .yield
  | .cell_config => .yield

/-- States of rrc::connection_request_proc. -/
inductive ConnReqState
  | cell_selection
  | config_serving_cell
  | wait_t300
  deriving DecidableEq

/-- Side effects of one invocation of rrc::connection_request_proc::step. -/
structure ConnReqEffects where
  macReset : Bool
  setMacDefault : Bool
  rlcReestablish : Bool
  t300Run : Bool
  conRequestSent : Bool
  deriving DecidableEq

/-- The step invocation that performs no side effect. -/
def connReqNoEffects : ConnReqEffects :=
  { macReset := false, setMacDefault := false, rlcReestablish := false,
    t300Run := false, conRequestSent := false }

/-- wait_t300 branch of rrc::connection_request_proc::step: yield while T300
runs; success when RRC reached CONNECTED; when T300 expired, reset MAC, apply
the default MAC config and reestablish RLC, then error; when T300 was stopped
without reaching CONNECTED (ConnectionReject), reset MAC and apply the
default MAC config, then error. -/
def conn_req_step_wait_t300 (t300Running rrcConnected t300Expired : Bool) :
    ProcOutcome × ConnReqEffects :=
  if t300Running then (.yield, connReqNoEffects)
  else if rrcConnected then (.success, connReqNoEffects)
  else if t300Expired then
    (.error, { macReset := true, setMacDefault := true, rlcReestablish := true,
               t300Run := false, conRequestSent := false })
  else
    (.error, { macReset := true, setMacDefault := true, rlcReestablish := false,
               t300Run := false, conRequestSent := false })

/-- rrc::connection_request_proc::step. In cell_selection the procedure waits
for the cell-selection event trigger. In config_serving_cell it waits for the
serving-cell-config procedure; on its error the step fails; otherwise T300 is
started, the RRCConnectionRequest is sent, the dedicated NAS SDU is moved to
the rrc instance, the state moves to wait_t300 and step() is tail-called; the
tail call yields because T300 was just started. -/
def conn_req_step (st : ConnReqState)
    (servCfgRunning servCfgError t300Running rrcConnected t300Expired : Bool) :
    ProcOutcome × ConnReqState × ConnReqEffects :=
  match st with
  | .cell_selection => (.yield, st, connReqNoEffects)
  | .config_serving_cell =>
    if servCfgRunning then (.yield, st, connReqNoEffects)
    else if servCfgError then (.error, st, connReqNoEffects)
    else
      (.yield, .wait_t300,
        { connReqNoEffects with t300Run := true, conRequestSent := true })
  | .wait_t300 =>
    let r := conn_req_step_wait_t300 t300Running rrcConnected t300Expired
    (r.1, .wait_t300, r.2)

/-- Side effects of rrc::connection_request_proc::then: whether the
procedure-local dedicated NAS SDU was deallocated, whether the rrc-level
dedicated NAS SDU was deallocated, and the boolean passed to
nas->connection_request_completed. -/
structure ConnReqThenEffects where
  procSduReset : Bool
  rrcSduReset : Bool
  nasNotifiedSuccess : Bool
  deriving DecidableEq

/-- rrc::connection_request_proc::then: on an error result both buffered
dedicatedInfoNAS SDUs are deallocated; NAS is always notified with
result.is_success(). -/
def conn_req_then (resultIsSuccess : Bool) : ConnReqThenEffects :=
  if resultIsSuccess = false then
    { procSduReset := true, rrcSduReset := true, nasNotifiedSuccess := false }
  else
    { procSduReset := false, rrcSduReset := false, nasNotifiedSuccess := true }

/-- rrc::connection_request_proc::react(cell_selection_complete): ignored
(yield) outside state cell_selection; an error event is an error; when the
PHY is camping the serving-cell-config procedure is launched (error when the
launch fails) and the handler tail-calls step() in state config_serving_cell,
whose result is passed in here as stepResult; when not camping the handler
logs and returns error. -/
def conn_req_react_cell_sel (st : ConnReqState) (eIsError cellIsCamping servCfgLaunchOk : Bool)
    (stepResult : ProcOutcome × ConnReqState) : ProcOutcome × ConnReqState :=
  if st ≠ ConnReqState.cell_selection then (.yield, st)
  else if eIsError then (.error, st)
  else if cellIsCamping then
    if servCfgLaunchOk = false then (.error, st)
    else stepResult
  else (.error, st)

/-- States of rrc::process_pcch_proc. -/
inductive PcchState
  | next_record
  | nas_paging
  | serv_cell_cfg
  deriving DecidableEq

/-- The fields of asn1::rrc::paging_s read by the PCCH procedure: the list of
paging records (each reduced to its S-TMSI, encoded as a number) and the
systemInfoModification flag. -/
structure PagingMsg where
  paging_record_list : List Nat
  sys_info_mod_present : Bool
  deriving DecidableEq

/-- The collaborator values read by rrc::process_pcch_proc: the UE identity,
whether RRC is in IDLE, whether nas->paging succeeds, whether launching the
serving-cell-config procedure succeeds, and the state of that procedure's
future when polled. -/
structure PcchEnv where
  ue_identity : Nat
  rrcIdle : Bool
  nasPagingOk : Bool
  servCfgLaunchOk : Bool
  servCfgRunning : Bool
  servCfgSuccess : Bool
  deriving DecidableEq

/-- Side effects performed by one invocation of the PCCH procedure. -/
structure PcchEffects where
  nasPagingCalled : Bool
  sibsReset : Bool
  servCfgLaunched : Bool
  deriving DecidableEq

/-- The PCCH invocation that performs no side effect. -/
def pcchNoEffects : PcchEffects :=
  { nasPagingCalled := false, sibsReset := false, servCfgLaunched := false }

/-- Record loop of rrc::process_pcch_proc::step: starting from position idx,
find the first paging record whose S-TMSI equals the UE identity while RRC is
IDLE (a matching record received outside IDLE only logs a Warning and the
loop continues; a non-matching record logs and continues). -/
def pcch_scan (ueId : Nat) (idle : Bool) : List Nat → Nat → Option Nat
  | [], _ => none
  | r :: rest, idx =>
    if ueId = r then
      if idle then some idx
      else pcch_scan ueId idle rest (idx + 1)
    else pcch_scan ueId idle rest (idx + 1)

/-- serv_cell_cfg branch of rrc::process_pcch_proc::step: yield while the
serving-cell-config procedure runs, then propagate its result. -/
def pcch_step_serv_cfg (env : PcchEnv) : ProcOutcome :=
  if env.servCfgRunning then .yield
  else if env.servCfgSuccess then .success
  else .error

/-- next_record branch of rrc::process_pcch_proc::step. A matching record in
IDLE invokes nas->paging (error when that fails, otherwise the state moves to
nas_paging and the tail-called step() yields). After the loop, when
systemInfoModification is present all serving-cell SIBs are invalidated and
the serving-cell-config procedure is launched (error when the launch fails,
otherwise the tail-called step() polls it); without the flag the procedure
completes successfully. Returns outcome, state, paging_idx and effects. -/
def pcch_step_next (p : PagingMsg) (idx : Nat) (env : PcchEnv) :
    ProcOutcome × PcchState × Nat × PcchEffects :=
  match pcch_scan env.ue_identity env.rrcIdle (p.paging_record_list.drop idx) idx with
  | some j =>
    if env.nasPagingOk then
      (.yield, .nas_paging, j, { pcchNoEffects with nasPagingCalled := true })
    else
      (.error, .next_record, j, { pcchNoEffects with nasPagingCalled := true })
  | none =>
    let endIdx := max idx p.paging_record_list.length
    if p.sys_info_mod_present then
      if env.servCfgLaunchOk then
        (pcch_step_serv_cfg env, .serv_cell_cfg, endIdx,
          { pcchNoEffects with sibsReset := true, servCfgLaunched := true })
      else
        (.error, .next_record, endIdx, { pcchNoEffects with sibsReset := true })
    else
      (.success, .next_record, endIdx, pcchNoEffects)

/-- rrc::process_pcch_proc::init: store the paging message, set paging_idx to
0 and state to next_record, and tail-call step(). -/
def pcch_init (p : PagingMsg) (env : PcchEnv) :
    ProcOutcome × PcchState × Nat × PcchEffects :=
  pcch_step_next p 0 env

/-- rrc::process_pcch_proc::react(paging_complete): outside state nas_paging
the source logs a Warning and yields; a failed NAS paging outcome is an
error; otherwise paging_idx is advanced, the state returns to next_record and
step() is tail-called. -/
def pcch_react_paging_complete (p : PagingMsg) (idx : Nat) (st : PcchState)
    (env : PcchEnv) (eOutcome : Bool) : ProcOutcome × PcchState × Nat × PcchEffects :=
  if st ≠ PcchState.nas_paging then (.yield, st, idx, pcchNoEffects)
  else if eOutcome = false then (.error, st, idx, pcchNoEffects)
  else pcch_step_next p (idx + 1) env

/-- States of rrc::ho_proc. -/
inductive HoState
  | launch_phy_cell_select
  | wait_phy_cell_select_complete
  | wait_ra_completion
  deriving DecidableEq

/-- Side effects of the handover procedure on PHY, MAC, RLC, PDCP, USIM and
the RRC message path, in the order the source performs them. -/
inductive HoAction
  | pdcpReestablish
  | rlcReestablish
  | macWaitUplink
  | macClearRntis
  | macReset
  | phyReset
  | setHoRnti
  | applyRrCfgCommon
  | applyRrCfgDedicated
  | phyCellSelect
  | setServingCell
  | applyScellCfg
  | startNoncontRA
  | startContRA
  | setSecurityAlgos
  | generateAsKeysHo
  | pdcpConfigSecurity
  | sendReconfigComplete
  deriving DecidableEq

/-- rrc::ho_proc::step. The first statement checks the RRC state: when RRC is
no longer CONNECTED the procedure returns error before doing anything else.
In state launch_phy_cell_select it reestablishes PDCP and RLC, waits for
uplink, clears RNTIs, resets MAC and PHY, sets the HO RNTI, applies the
common (and, when present, dedicated) radio resource configuration and
requests PHY cell selection of the target cell (error when the request
fails); in the other states it yields. -/
def ho_step (rrcConnected : Bool) (st : HoState)
    (startCellSelectOk rrCfgDedPresent : Bool) :
    ProcOutcome × HoState × List HoAction :=
  if rrcConnected = false then (.error, st, [])
  else if st = HoState.launch_phy_cell_select then
    let acts :=
      [HoAction.pdcpReestablish, HoAction.rlcReestablish, HoAction.macWaitUplink,
       HoAction.macClearRntis, HoAction.macReset, HoAction.phyReset,
       HoAction.setHoRnti, HoAction.applyRrCfgCommon]
      ++ (if rrCfgDedPresent then [HoAction.applyRrCfgDedicated] else [])
      ++ [HoAction.phyCellSelect]
    if startCellSelectOk = false then (.error, st, acts)
    else (.yield, .wait_phy_cell_select_complete, acts)
  else (.yield, st, [])

/-- rrc::ho_proc::react(const bool&): outside state
wait_phy_cell_select_complete the source logs a Warning and yields. A target
cell meanwhile removed from the neighbour list, or a failed selection, is an
error. On success the target becomes the serving cell, the SCell config is
applied and random access is started (non-contention when rach_cfg_ded is
present, contention otherwise); then, when securityConfigHO is present, a set
keyChangeIndicator aborts with error, and a present securityAlgorithmConfig
changes the AS security algorithms; finally new AS keys are derived, PDCP
security is reconfigured, the RRCConnectionReconfigurationComplete is queued
and the state moves to wait_ra_completion. The handler never reads the RRC
state. -/
def ho_react_bool (st : HoState) (cs_ret : Bool)
    (targetCellExists rachCfgDedPresent secCfgHoPresent keyChangeInd
     secAlgoCfgPresent : Bool) : ProcOutcome × HoState × List HoAction :=
  if st ≠ HoState.wait_phy_cell_select_complete then (.yield, st, [])
  else if targetCellExists = false then (.error, st, [])
  else if cs_ret = false then (.error, st, [])
  else
    let raAction := if rachCfgDedPresent then HoAction.startNoncontRA else HoAction.startContRA
    let acts := [HoAction.setServingCell, HoAction.applyScellCfg, raAction]
    if secCfgHoPresent && keyChangeInd then (.error, st, acts)
    else
      let acts := acts ++
        (if secCfgHoPresent && secAlgoCfgPresent then [HoAction.setSecurityAlgos] else [])
      (.yield, .wait_ra_completion,
        acts ++ [HoAction.generateAsKeysHo, HoAction.pdcpConfigSecurity,
                 HoAction.sendReconfigComplete])

/-- rrc::ho_proc::react(ra_completed_ev): outside state wait_ra_completion
the source logs a Warning and yields; otherwise the RA result decides
success or error (a failed parse of measConfig only logs). -/
def ho_react_ra (st : HoState) (raSuccess : Bool) : ProcOutcome × HoState :=
  if st ≠ HoState.wait_ra_completion then (.yield, st)
  else if raSuccess then (.success, st)
  else (.error, st)

/-- The events a running ho_proc can receive: the periodic step tick, the PHY
cell-selection result, T304 expiry, and RA completion. -/
inductive HoEvent
  | tick
  | csResult (cs_ret : Bool)
  | t304Expiry
  | raCompleted (raSuccess : Bool)
  deriving DecidableEq

/-- The collaborator values read by the handover procedure's handlers. -/
structure HoEnv where
  startCellSelectOk : Bool
  rrCfgDedPresent : Bool
  targetCellExists : Bool
  rachCfgDedPresent : Bool
  secCfgHoPresent : Bool
  keyChangeInd : Bool
  secAlgoCfgPresent : Bool
  deriving DecidableEq

/-- Dispatch of one delivered invocation of rrc::ho_proc: step ticks go to
ho_step, which alone consults the RRC state; react handlers are dispatched on
the event type and, as in the source, do not read the RRC state. -/
def ho_handle (rrcConnected : Bool) (st : HoState) (ev : HoEvent) (env : HoEnv) :
    ProcOutcome × HoState × List HoAction :=
  match ev with
  | .tick => ho_step rrcConnected st env.startCellSelectOk env.rrCfgDedPresent
  | .csResult b =>
    ho_react_bool st b env.targetCellExists env.rachCfgDedPresent
      env.secCfgHoPresent env.keyChangeInd env.secAlgoCfgPresent
  | .t304Expiry => (.error, st, [])
  | .raCompleted s =>
    let r := ho_react_ra st s
    (r.1, r.2, [])

theorem tti_lt_true_iff (x y : Nat) :
    tti_lt x y = true ↔
      (0 < (y % 10240 + 10240 - x % 10240) % 10240 ∧
       (y % 10240 + 10240 - x % 10240) % 10240 < 5120) := by
  simp [tti_lt]

theorem sib_start_tti_next_window (tti T o a : Nat) (hT1 : 1 ≤ T) (hT2 : T ≤ 256)
    (ho : o ≤ 124) (ha : a ≤ 9) (htti : tti < 10240) :
    sib_start_tti tti T o a < 10240 ∧ tti_lt tti (sib_start_tti tti T o a) = true := by
  unfold sib_start_tti
  rw [tti_lt_true_iff]
  set M := T * 10 with hMdef
  have hM1 : 10 ≤ M := by omega
  have hM2 : M ≤ 2560 := by omega
  have hdm : M * (tti / M) + tti % M = tti := Nat.div_add_mod _ _
  have hr : tti % M < M := Nat.mod_lt _ (by omega)
  have hexp : M * (1 + tti / M) = M + M * (tti / M) := by ring
  rw [hexp]
  set P := M * (tti / M) with hPdef
  set R := tti % M with hRdef
  omega

/-- C2 (amended): for every tti in [0, 10240), every periodicity T in
{2, 8, 16, 32, 64, 128, 256}, and every frame offset o and start subframe a
that compute_si_window can produce (either the fixed SIB1 pair (0, 5), or
a = (n * w) % 10 and o = (n * w) / 10 for a schedInfoList index n < 32 and an
si-WindowLength w in {1, 2, 5, 10, 15, 20, 40}), sib_start_tti tti T o a is
in [0, 10240) and is strictly later than tti under the wrap-aware TTI
comparison. For T = 512 this fails (see the counterexample), because the
window start can land 5120 or more TTIs ahead. -/
theorem c2_sib_start_tti_next_opportunity (tti T o a : Nat)
    (htti : tti < 10240)
    (hT : T ∈ ([2, 8, 16, 32, 64, 128, 256] : List Nat))
    (hoa : (o = 0 ∧ a = 5) ∨
      ∃ n w, n < 32 ∧ w ∈ ([1, 2, 5, 10, 15, 20, 40] : List Nat) ∧
        a = (n * w) % 10 ∧ o = (n * w) / 10) :
    sib_start_tti tti T o a < 10240 ∧ tti_lt tti (sib_start_tti tti T o a) = true := by
  have hTb : 1 ≤ T ∧ T ≤ 256 := by
    simp only [List.mem_cons, List.not_mem_nil, or_false] at hT
    omega
  have hbounds : o ≤ 124 ∧ a ≤ 9 := by
    rcases hoa with ⟨ho, ha⟩ | ⟨n, w, hn, hw, ha, ho⟩
    · omega
    · have hw40 : w ≤ 40 := by
        simp only [List.mem_cons, List.not_mem_nil, or_false] at hw
        omega
      have hnw : n * w ≤ 1240 :=
        le_trans (Nat.mul_le_mul (by omega : n ≤ 31) hw40) (by norm_num)
      omega
  exact sib_start_tti_next_window tti T o a hTb.1 hTb.2 hbounds.1 hbounds.2 htti

/-- C2 witness: a concrete instance of the amended claim, at tti = 3, T = 8
and the SIB1 pair (o, a) = (0, 5). -/
theorem c2_sib_start_tti_next_opportunity_witness :
    sib_start_tti 3 8 0 5 < 10240 ∧ tti_lt 3 (sib_start_tti 3 8 0 5) = true :=
  c2_sib_start_tti_next_opportunity 3 8 0 5 (by decide) (by decide)
    (Or.inl ⟨rfl, rfl⟩)

/-- C2 counterexample: the claim as stated also admits T = 512 and the
produced pair (o, a) = (0, 0) (from n = 0); at tti = 0 the computed window
start is exactly 5120 TTIs ahead, which the wrap-aware comparison with
threshold 5120 does not classify as later than tti. compute_si_window
produces exactly these values for SIB2 (sib_index 1, n = 0) with T = 512. -/
theorem c2_counterexample :
    compute_si_window 0 1 0 512 { si_win_len := 1, sched_info_list := [] } = (5120, 1) ∧
    sib_start_tti 0 512 0 0 = 5120 ∧
    tti_lt 0 (sib_start_tti 0 512 0 0) = false := by decide

/-- C7: for every tti in [0, 10240) and all values of n, T and sib1,
compute_si_window tti 0 n T sib1 returns a window of length 1 whose start is
congruent to 5 modulo 20, and the result does not depend on n, T or sib1. -/
theorem c7_compute_si_window_sib1 (tti n T : Nat) (sib1 : SibType1)
    (n2 T2 : Nat) (sib2 : SibType1) (htti : tti < 10240) :
    (compute_si_window tti 0 n T sib1).2 = 1 ∧
    (compute_si_window tti 0 n T sib1).1 % 20 = 5 ∧
    compute_si_window tti 0 n T sib1 = compute_si_window tti 0 n2 T2 sib2 := by
  refine ⟨rfl, ?_, rfl⟩
  show sib_start_tti tti 2 0 5 % 20 = 5
  unfold sib_start_tti
  norm_num
  omega

/-- C7 witness: the SIB1 window computation at tti = 77 is independent of the
other arguments, has length 1, and starts in subframe 5 of an even frame. -/
theorem c7_compute_si_window_sib1_witness :
    (compute_si_window 77 0 3 99 { si_win_len := 1, sched_info_list := [] }).2 = 1 ∧
    (compute_si_window 77 0 3 99 { si_win_len := 1, sched_info_list := [] }).1 % 20 = 5 ∧
    compute_si_window 77 0 3 99 { si_win_len := 1, sched_info_list := [] } =
      compute_si_window 77 0 4 100 { si_win_len := 2, sched_info_list := [] } :=
  c7_compute_si_window_sib1 77 3 99 _ 4 100 _ (by decide)

/-- C3: whenever the computed SI-window start compares (wrap-aware) earlier
than the current TTI, start_si_acquire returns immediately: MAC bcch_start_rx
is not called and the retry timer is neither set nor started. Consequently,
with the SIB still absent, react(sib_received) can only yield, a retry-timer
event can only yield, and the only event that completes the procedure is a
timer event with a different id, i.e. the overall SIB_SEARCH_TIMEOUT_MS
timeout (which is an error). -/
theorem c3_si_win_start_in_past_no_reschedule
    (tti sib_index sched_index period : Nat) (sib1 : SibType1)
    (hpast : tti_lt (compute_si_window tti sib_index sched_index period sib1).1 tti = true) :
    start_si_acquire tti sib_index sched_index period sib1 =
      { bcchStart := none, retryTics := none, retryRun := false } ∧
    si_acq_react_sib_received false = ProcOutcome.yield ∧
    (∀ retryId timeoutId : Nat,
      si_acq_react_timer false retryId retryId timeoutId = ProcOutcome.yield) ∧
    (∀ evId retryId timeoutId : Nat, evId ≠ retryId →
      si_acq_react_timer false evId retryId timeoutId = ProcOutcome.error) := by
  refine ⟨?_, rfl, ?_, ?_⟩
  · simp [start_si_acquire, hpast]
  · intro retryId timeoutId
    simp [si_acq_react_timer]
  · intro evId retryId timeoutId hne
    simp [si_acq_react_timer, hne]

/-- C3 witness: at tti = 0, sib_index = 1, schedInfoList index 10, T = 512
and si-WindowLength 1 the computed window start is 5130, which the wrap-aware
comparison classifies as earlier than tti = 0; start_si_acquire performs no
side effect there. -/
theorem c3_si_win_start_in_past_no_reschedule_witness :
    tti_lt (compute_si_window 0 1 10 512 { si_win_len := 1, sched_info_list := [] }).1 0 = true ∧
    start_si_acquire 0 1 10 512 { si_win_len := 1, sched_info_list := [] } =
      { bcchStart := none, retryTics := none, retryRun := false } ∧
    si_acq_react_timer false 3 7 3 = ProcOutcome.error :=
  ⟨by decide,
   (c3_si_win_start_in_past_no_reschedule 0 1 10 512
     { si_win_len := 1, sched_info_list := [] } (by decide)).1,
   (c3_si_win_start_in_past_no_reschedule 0 1 10 512
     { si_win_len := 1, sched_info_list := [] } (by decide)).2.2.2 3 7 3 (by decide)⟩

/-- C4: in state wait_t300 the connection-request step yields while T300
runs; with T300 stopped and RRC CONNECTED it succeeds with no side effect;
with T300 expired it resets MAC, applies the default MAC configuration,
reestablishes RLC and errors; with T300 stopped short of CONNECTED
(ConnectionReject) it resets MAC, applies the default MAC configuration and
errors without touching RLC; and the then hook of an error outcome drops both
buffered dedicated NAS SDUs and notifies NAS with
connection_request_completed(false). -/
theorem c4_connection_request_wait_t300 :
    (∀ sR sE c e : Bool, conn_req_step ConnReqState.wait_t300 sR sE true c e =
      (ProcOutcome.yield, ConnReqState.wait_t300, connReqNoEffects)) ∧
    (∀ sR sE e : Bool, conn_req_step ConnReqState.wait_t300 sR sE false true e =
      (ProcOutcome.success, ConnReqState.wait_t300, connReqNoEffects)) ∧
    (∀ sR sE : Bool, conn_req_step ConnReqState.wait_t300 sR sE false false true =
      (ProcOutcome.error, ConnReqState.wait_t300,
        { macReset := true, setMacDefault := true, rlcReestablish := true,
          t300Run := false, conRequestSent := false })) ∧
    (∀ sR sE : Bool, conn_req_step ConnReqState.wait_t300 sR sE false false false =
      (ProcOutcome.error, ConnReqState.wait_t300,
        { macReset := true, setMacDefault := true, rlcReestablish := false,
          t300Run := false, conRequestSent := false })) ∧
    conn_req_then false =
      { procSduReset := true, rrcSduReset := true, nasNotifiedSuccess := false } := by
  refine ⟨fun sR sE c e => rfl, fun sR sE e => rfl, fun sR sE => rfl,
    fun sR sE => rfl, rfl⟩

/-- C8: the then hook of the SI-acquire procedure stops both the retry timer
and the overall timeout timer, for every prior timer state and for both
completion results, so no SI-acquisition timer is left running. -/
theorem c8_si_acquire_then_stops_timers (ts : SiAcqTimers) (resultIsSuccess : Bool) :
    (si_acquire_then ts resultIsSuccess).si_acq_retry_timer.running = false ∧
    (si_acquire_then ts resultIsSuccess).si_acq_timeout.running = false :=
  ⟨rfl, rfl⟩

theorem scc_walk_success_iff (hasSib isSibScheduled : Nat → Bool) (l : List Nat) :
    ∀ idx : Nat,
      (scc_walk hasSib isSibScheduled true l idx = SccRes.success ↔
        ∀ s ∈ l, hasSib s = true ∨ (2 ≤ s ∧ isSibScheduled s = false)) := by
  induction l with
  | nil => intro idx; simp [scc_walk]
  | cons s rest ih =>
    intro idx
    simp only [scc_walk, List.mem_cons, forall_eq_or_imp]
    by_cases hh : hasSib s = false
    · rw [if_pos hh]
      by_cases hb : (decide (s < 2) || isSibScheduled s) = true
      · rw [if_pos hb]
        simp only [if_true]
        constructor
        · intro hcontra
          simp at hcontra
        · rintro ⟨hs, -⟩
          rcases hs with hs | ⟨h2, h3⟩
          · rw [hh] at hs; cases hs
          · simp only [h3, Bool.or_false, decide_eq_true_eq] at hb
            omega
      · rw [if_neg hb, ih (idx + 1)]
        simp only [Bool.or_eq_true, decide_eq_true_eq, not_or, Bool.not_eq_true] at hb
        constructor
        · intro h; exact ⟨Or.inr ⟨by omega, hb.2⟩, h⟩
        · rintro ⟨-, h⟩; exact h
    · rw [if_neg hh, ih (idx + 1)]
      have hh2 : hasSib s = true := by
        cases hval : hasSib s
        · exact absurd hval hh
        · rfl
      constructor
      · intro h; exact ⟨Or.inl hh2, h⟩
      · rintro ⟨-, h⟩; exact h

theorem scc_walk_yieldAt_bound (hasSib isSibScheduled : Nat → Bool) (launchOk : Bool)
    (l : List Nat) : ∀ idx j : Nat,
      scc_walk hasSib isSibScheduled launchOk l idx = SccRes.yieldAt j →
      idx ≤ j ∧ j < idx + l.length := by
  induction l with
  | nil => intro idx j h; cases h
  | cons s rest ih =>
    intro idx j h
    simp only [scc_walk] at h
    by_cases h1 : hasSib s = false
    · rw [if_pos h1] at h
      by_cases h2 : (decide (s < 2) || isSibScheduled s) = true
      · rw [if_pos h2] at h
        by_cases h3 : launchOk = true
        · rw [if_pos h3] at h
          cases h
          simp only [List.length_cons]
          omega
        · rw [if_neg h3] at h; cases h
      · rw [if_neg h2] at h
        have hb := ih (idx + 1) j h
        simp only [List.length_cons]
        omega
    · rw [if_neg h1] at h
      have hb := ih (idx + 1) j h
      simp only [List.length_cons]
      omega

/-- C5: in the serving-cell-config walk, (i) a required SIB with index at
least 2 that is absent and not scheduled in SIB1's schedInfoList is skipped
without launching SI-acquire; (ii) when the launched SI-acquire future is
complete in step, an error result — and likewise a still-absent SIB — makes
the step fail for a SIB index below 2; (iii) for a SIB index of at least 2
the step always advances to the next required SIB and relaunches the walk;
and (iv) the walk succeeds exactly when it reaches the end of the required
list, i.e. when every remaining required SIB is either already possessed or
is an unscheduled SIB3+. -/
theorem c5_serving_cell_config_walk :
    (∀ (hasSib isSibScheduled : Nat → Bool) (launchOk : Bool)
       (s : Nat) (rest : List Nat) (idx : Nat),
        hasSib s = false → 2 ≤ s → isSibScheduled s = false →
        scc_walk hasSib isSibScheduled launchOk (s :: rest) idx =
          scc_walk hasSib isSibScheduled launchOk rest (idx + 1)) ∧
    (∀ (hasSib isSibScheduled : Nat → Bool) (launchOk : Bool)
       (sibs : List Nat) (idx : Nat) (futError : Bool),
        (futError = true ∨ hasSib (sibs.getD idx 0) = false) →
        sibs.getD idx 0 < 2 →
        scc_step hasSib isSibScheduled launchOk sibs idx true futError =
          (SccRes.error, idx)) ∧
    (∀ (hasSib isSibScheduled : Nat → Bool) (launchOk : Bool)
       (sibs : List Nat) (idx : Nat) (futError : Bool),
        2 ≤ sibs.getD idx 0 →
        scc_step hasSib isSibScheduled launchOk sibs idx true futError =
          (scc_launch_from hasSib isSibScheduled launchOk sibs (idx + 1), idx + 1)) ∧
    (∀ (hasSib isSibScheduled : Nat → Bool) (l : List Nat) (idx : Nat),
        scc_walk hasSib isSibScheduled true l idx = SccRes.success ↔
        ∀ s ∈ l, hasSib s = true ∨ (2 ≤ s ∧ isSibScheduled s = false)) := by
  refine ⟨?_, ?_, ?_, ?_⟩
  · intro hasSib isSibScheduled launchOk s rest idx h1 h2 h3
    simp only [scc_walk]
    rw [if_pos h1, if_neg (by simp [h3]; omega)]
  · intro hasSib isSibScheduled launchOk sibs idx futError herr hlt
    have hcond : ((futError || !hasSib (sibs.getD idx 0)) &&
        decide (sibs.getD idx 0 < 2)) = true := by
      rcases herr with h | h
      · rw [h]; simpa using hlt
      · rw [h]; simpa using hlt
    simp only [scc_step]
    rw [if_neg (by decide), if_pos hcond]
  · intro hasSib isSibScheduled launchOk sibs idx futError hge
    simp only [scc_step]
    rw [if_neg (by decide), if_neg (by
      simp only [Bool.and_eq_true, decide_eq_true_eq, not_and]
      intro hx
      omega)]
  · intro hasSib isSibScheduled l idx
    exact scc_walk_success_iff hasSib isSibScheduled l idx

/-- C5 witness: concrete instances — with no SIB possessed and none
scheduled, SIB5 (index 4) is skipped by the walk; a completed erroring
SI-acquire on SIB2 (index 1) fails the step; on SIB6 (index 5) the step
advances; and the walk over a possessed-free, unscheduled list of SIB3+
indices succeeds. -/
theorem c5_serving_cell_config_walk_witness :
    scc_walk (fun _ => false) (fun _ => false) true [4] 0 =
      scc_walk (fun _ => false) (fun _ => false) true [] 1 ∧
    scc_step (fun _ => false) (fun _ => false) true [1] 0 true true =
      (SccRes.error, 0) ∧
    scc_step (fun _ => false) (fun _ => false) true [5] 0 true false =
      (scc_launch_from (fun _ => false) (fun _ => false) true [5] 1, 1) ∧
    (scc_walk (fun _ => false) (fun _ => false) true [9] 0 = SccRes.success ↔
      ∀ s ∈ ([9] : List Nat), (fun _ => false : Nat → Bool) s = true ∨
        (2 ≤ s ∧ (fun _ => false : Nat → Bool) s = false)) :=
  ⟨c5_serving_cell_config_walk.1 _ _ true 4 [] 0 rfl (by decide) rfl,
   c5_serving_cell_config_walk.2.1 _ _ true [1] 0 true (Or.inl rfl) (by decide),
   c5_serving_cell_config_walk.2.2.1 _ _ true [5] 0 false (by decide),
   c5_serving_cell_config_walk.2.2.2 _ _ [9] 0⟩

/-- C9: whenever launch_sib_acquire yields (i.e. launched an SI-acquire), the
position it yielded at — the req_idx that step will read — is strictly below
the length of required_sibs, so the unchecked read required_sibs[req_idx] in
step is in bounds. -/
theorem c9_scc_step_index_in_bounds
    (hasSib isSibScheduled : Nat → Bool) (launchOk : Bool)
    (required_sibs : List Nat) (req_idx j : Nat)
    (h : scc_launch_from hasSib isSibScheduled launchOk required_sibs req_idx =
      SccRes.yieldAt j) :
    j < required_sibs.length := by
  unfold scc_launch_from at h
  have hb := scc_walk_yieldAt_bound hasSib isSibScheduled launchOk _ _ _ h
  rcases Nat.lt_or_ge req_idx required_sibs.length with hlt | hge
  · have hlen : (required_sibs.drop req_idx).length = required_sibs.length - req_idx :=
      List.length_drop _ _
    omega
  · rw [List.drop_eq_nil_of_le hge] at h
    cases h

/-- C9 witness: launching over the one-element list [0] from position 0
yields at position 0, which is below the list length. -/
theorem c9_scc_step_index_in_bounds_witness :
    scc_launch_from (fun _ => false) (fun _ => false) true [0] 0 = SccRes.yieldAt 0 ∧
    0 < ([0] : List Nat).length :=
  ⟨by decide,
   c9_scc_step_index_in_bounds (fun _ => false) (fun _ => false) true [0] 0 0 (by decide)⟩

theorem pcch_scan_none (ueId : Nat) (idle : Bool) (l : List Nat) :
    ∀ idx : Nat, (∀ r ∈ l, r ≠ ueId) → pcch_scan ueId idle l idx = none := by
  induction l with
  | nil => intro idx h; rfl
  | cons r rest ih =>
    intro idx h
    have hr : r ≠ ueId := h r (List.mem_cons_self r rest)
    simp only [pcch_scan]
    rw [if_neg (fun he => hr he.symm)]
    exact ih (idx + 1) (fun x hx => h x (List.mem_cons_of_mem r hx))

/-- C6 (amended): for every paging message in which no paging record's S-TMSI
equals the UE identity and whose systemInfoModification flag is absent, the
PCCH procedure completes with success, without invoking NAS paging, without
invalidating the serving-cell SIBs and without launching serving-cell-config.
The claim as stated also covered messages with the systemInfoModification
flag set, where the source does invalidate all serving-cell SIBs and launch
serving-cell-config (see the counterexample). -/
theorem c6_pcch_no_match_no_sysmod (p : PagingMsg) (env : PcchEnv)
    (hnomatch : ∀ r ∈ p.paging_record_list, r ≠ env.ue_identity)
    (hnomod : p.sys_info_mod_present = false) :
    pcch_init p env =
      (ProcOutcome.success, PcchState.next_record, p.paging_record_list.length,
        pcchNoEffects) := by
  unfold pcch_init pcch_step_next
  rw [List.drop_zero, pcch_scan_none _ _ _ _ hnomatch]
  simp [hnomod]

/-- C6 witness: a two-record paging message for other identities, without the
systemInfoModification flag, is consumed successfully with no side effect. -/
theorem c6_pcch_no_match_no_sysmod_witness :
    (∀ r ∈ ([1, 2] : List Nat), r ≠ (7 : Nat)) ∧
    pcch_init { paging_record_list := [1, 2], sys_info_mod_present := false }
        { ue_identity := 7, rrcIdle := true, nasPagingOk := true,
          servCfgLaunchOk := true, servCfgRunning := true, servCfgSuccess := false } =
      (ProcOutcome.success, PcchState.next_record, 2, pcchNoEffects) :=
  ⟨by decide,
   c6_pcch_no_match_no_sysmod
     { paging_record_list := [1, 2], sys_info_mod_present := false }
     { ue_identity := 7, rrcIdle := true, nasPagingOk := true,
       servCfgLaunchOk := true, servCfgRunning := true, servCfgSuccess := false }
     (by decide) rfl⟩

/-- C6 counterexample: a paging message with no matching record (its record
list is empty) but with systemInfoModification present makes the PCCH
procedure invalidate all serving-cell SIBs and launch serving-cell-config,
and its outcome is not success — contradicting the claim that every paging
message without a matching record is consumed successfully without side
effects. -/
theorem c6_counterexample :
    (∀ r ∈ ([] : List Nat), r ≠ (7 : Nat)) ∧
    (pcch_init { paging_record_list := [], sys_info_mod_present := true }
        { ue_identity := 7, rrcIdle := true, nasPagingOk := true,
          servCfgLaunchOk := true, servCfgRunning := true,
          servCfgSuccess := false }).2.2.2.sibsReset = true ∧
    (pcch_init { paging_record_list := [], sys_info_mod_present := true }
        { ue_identity := 7, rrcIdle := true, nasPagingOk := true,
          servCfgLaunchOk := true, servCfgRunning := true,
          servCfgSuccess := false }).2.2.2.servCfgLaunched = true ∧
    (pcch_init { paging_record_list := [], sys_info_mod_present := true }
        { ue_identity := 7, rrcIdle := true, nasPagingOk := true,
          servCfgLaunchOk := true, servCfgRunning := true,
          servCfgSuccess := false }).1 ≠ ProcOutcome.success := by decide

/-- C1 (amended): an event delivered to an RRC procedure in a state its react
handler does not expect is ignored with a warning and the handler returns
yield — for cell-search's boolean (cell-select) event, cell-selection's
boolean event (whose unexpected states are cell_search and cell_config),
connection-request's cell-selection-complete event, PCCH's paging-complete
event, and handover's cell-select and RA-completion events — with one
exception: cell-search's react to a cell-search result in a state other than
phy_cell_search logs an Error and returns error. -/
theorem c1_unexpected_event_handling :
    (∀ (st : CellSearchState) (b c : Bool), st ≠ CellSearchState.phy_cell_select →
      (cell_search_react_bool st b c).1 = ProcOutcome.yield) ∧
    (∀ (st : CellSelState) (ev : Bool) (f g : Bool → ProcOutcome),
      st = CellSelState.cell_search ∨ st = CellSelState.cell_config →
      cell_selection_react st ev f g = ProcOutcome.yield) ∧
    (∀ (st : ConnReqState) (e c l : Bool) (sr : ProcOutcome × ConnReqState),
      st ≠ ConnReqState.cell_selection →
      (conn_req_react_cell_sel st e c l sr).1 = ProcOutcome.yield) ∧
    (∀ (p : PagingMsg) (idx : Nat) (st : PcchState) (env : PcchEnv) (e : Bool),
      st ≠ PcchState.nas_paging →
      (pcch_react_paging_complete p idx st env e).1 = ProcOutcome.yield) ∧
    (∀ (st : HoState) (b t r s k sa : Bool),
      st ≠ HoState.wait_phy_cell_select_complete →
      (ho_react_bool st b t r s k sa).1 = ProcOutcome.yield) ∧
    (∀ (st : HoState) (b : Bool), st ≠ HoState.wait_ra_completion →
      (ho_react_ra st b).1 = ProcOutcome.yield) ∧
    (∀ (st : CellSearchState) (f : CellFoundRes) (a b : Bool),
      st ≠ CellSearchState.phy_cell_search →
      (cell_search_react_srch_res st f a b).1 = ProcOutcome.error) := by
  refine ⟨?_, ?_, ?_, ?_, ?_, ?_, ?_⟩
  · intro st b c h
    rw [cell_search_react_bool, if_pos h]
  · intro st ev f g h
    rcases h with h | h <;> subst h <;> rfl
  · intro st e c l sr h
    rw [conn_req_react_cell_sel, if_pos h]
  · intro p idx st env e h
    rw [pcch_react_paging_complete, if_pos h]
  · intro st b t r s k sa h
    rw [ho_react_bool, if_pos h]
  · intro st b h
    rw [ho_react_ra, if_pos h]
  · intro st f a b h
    rw [cell_search_react_srch_res.eq_def, if_pos h]

/-- C1 witness: concrete unexpected deliveries — each yields, except the
cell-search result event outside phy_cell_search, which errors. -/
theorem c1_unexpected_event_handling_witness :
    (cell_search_react_bool CellSearchState.si_acquire true true).1 = ProcOutcome.yield ∧
    cell_selection_react CellSelState.cell_config true
      (fun _ => ProcOutcome.error) (fun _ => ProcOutcome.error) = ProcOutcome.yield ∧
    (conn_req_react_cell_sel ConnReqState.wait_t300 false true true
      (ProcOutcome.error, ConnReqState.wait_t300)).1 = ProcOutcome.yield ∧
    (pcch_react_paging_complete { paging_record_list := [], sys_info_mod_present := false }
      0 PcchState.next_record
      { ue_identity := 0, rrcIdle := true, nasPagingOk := true,
        servCfgLaunchOk := true, servCfgRunning := true, servCfgSuccess := true }
      true).1 = ProcOutcome.yield ∧
    (ho_react_bool HoState.wait_ra_completion true true true true true true).1 =
      ProcOutcome.yield ∧
    (ho_react_ra HoState.launch_phy_cell_select true).1 = ProcOutcome.yield ∧
    (cell_search_react_srch_res CellSearchState.wait_measurement
      CellFoundRes.cell_found true true).1 = ProcOutcome.error :=
  ⟨c1_unexpected_event_handling.1 _ true true (by decide),
   c1_unexpected_event_handling.2.1 _ true _ _ (Or.inr rfl),
   c1_unexpected_event_handling.2.2.1 _ false true true _ (by decide),
   c1_unexpected_event_handling.2.2.2.1 _ 0 _ _ true (by decide),
   c1_unexpected_event_handling.2.2.2.2.1 _ true true true true true true (by decide),
   c1_unexpected_event_handling.2.2.2.2.2.1 _ true (by decide),
   c1_unexpected_event_handling.2.2.2.2.2.2 _ CellFoundRes.cell_found true true (by decide)⟩

/-- C1 counterexample: delivering a cell-search result to cell_search_proc in
state si_acquire — a state that does not expect this event — returns error,
not yield, contradicting the claim that unexpected events always yield with a
warning for every procedure. -/
theorem c1_counterexample :
    (cell_search_react_srch_res CellSearchState.si_acquire
      CellFoundRes.cell_not_found true true).1 = ProcOutcome.error ∧
    ProcOutcome.error ≠ ProcOutcome.yield := by decide

/-- C10 (amended): every invocation of ho_proc::step first checks the RRC
state and, when the state is no longer CONNECTED, terminates with error
before performing any action, so step never issues a PHY cell-select request
or a stack reset once the UE has left CONNECTED; the react handler for the
PHY cell-selection result, however, does not consult the RRC state at all
(its result is identical for every value of the RRC state), so a
cell-selection result delivered after the UE left CONNECTED still triggers
random access (see the counterexample). -/
theorem c10_ho_step_guard :
    (∀ (st : HoState) (env : HoEnv),
      ho_handle false st HoEvent.tick env = (ProcOutcome.error, st, [])) ∧
    (∀ (st : HoState) (b : Bool) (env : HoEnv) (x y : Bool),
      ho_handle x st (HoEvent.csResult b) env = ho_handle y st (HoEvent.csResult b) env) := by
  constructor
  · intro st env; rfl
  · intro st b env x y; rfl

/-- C10 counterexample: a PHY cell-selection result delivered to ho_proc in
state wait_phy_cell_select_complete while the RRC state is not CONNECTED
still starts contention-based random access and does not terminate with
error — contradicting the claim that the handover procedure never issues
random access once the UE has left the CONNECTED state. -/
theorem c10_counterexample :
    (ho_handle false HoState.wait_phy_cell_select_complete (HoEvent.csResult true)
      { startCellSelectOk := true, rrCfgDedPresent := false, targetCellExists := true,
        rachCfgDedPresent := false, secCfgHoPresent := false, keyChangeInd := false,
        secAlgoCfgPresent := false }).1 = ProcOutcome.yield ∧
    HoAction.startContRA ∈
      (ho_handle false HoState.wait_phy_cell_select_complete (HoEvent.csResult true)
        { startCellSelectOk := true, rrCfgDedPresent := false, targetCellExists := true,
          rachCfgDedPresent := false, secCfgHoPresent := false, keyChangeInd := false,
          secAlgoCfgPresent := false }).2.2 := by decide
